import Mathlib

/-
Shallow embedding of the nitter_x core (ingestion scheduler and tiered
classification pipeline) and proofs of its specified properties.

Python strings are modelled as Lean `String`; Python substring tests
(`sub in s`) as an executable scan over the character lists; Redis and
PostgreSQL state as explicit functional state threaded through each
operation.
-/

/-- Python default whitespace characters removed by `str.strip()`. -/
def isPySpace (c : Char) : Bool :=
  c == ' ' || c == '\t' || c == '\n' || c == '\r' || c == '\x0b' || c == '\x0c'

/-- Python `str.strip()`: drop leading and trailing whitespace. -/
def pyStrip (s : String) : String :=
  String.mk (((s.toList.dropWhile isPySpace).reverse.dropWhile isPySpace).reverse)

/-- Python `str.upper()`, character-wise uppercasing. -/
def pyUpper (s : String) : String := String.mk (s.toList.map Char.toUpper)

/-- Python `str.lower()`, character-wise lowercasing. -/
def pyLower (s : String) : String := String.mk (s.toList.map Char.toLower)

/-- Whether the first character list starts the second one. -/
def startsWithChars : List Char → List Char → Bool
  | [], _ => true
  | _ :: _, [] => false
  | a :: as, b :: bs => a == b && startsWithChars as bs

/-- Whether the first character list occurs contiguously in the second one. -/
def occursInChars (sub : List Char) : List Char → Bool
  | [] => sub.isEmpty
  | b :: bs => startsWithChars sub (b :: bs) || occursInChars sub bs

/-- Python `sub in s` substring membership test. -/
def pyContains (s sub : String) : Bool := occursInChars sub.toList s.toList

/-- The fixed ordered tier vocabulary iterated in TweetProcessor.grade_tweet
(tweet_processor.py line 69), highest priority first. -/
def gradeLevels : List String := ["P0", "P1", "P2", "P3", "P4", "P5", "P6"]

/-- Label extraction from a grading response (tweet_processor.py lines 64-76):
strip and uppercase the response, scan P0..P6 in order, break at the first
level occurring as a substring, and default to "P6" when none matches. -/
def extractGrade (response : String) : String :=
  match gradeLevels.find?
      (fun level => pyContains (pyUpper (pyStrip response)) level) with
  | some g => g
  | none => "P6"

/-- TweetProcessor.grade_tweet (tweet_processor.py lines 44-84): the LLM chat
call may fail (modelled as `Except.error`); any exception is caught and the
method returns "P6"; otherwise the label is extracted from the response. -/
def grade_tweet (chatResult : Except String String) : String :=
  match chatResult with
  | Except.error _ => "P6"
  | Except.ok response => extractGrade response

/-- Formulation following the spec sentence for grade extraction: the first
label in the fixed order P0..P6 occurring as a substring of the trimmed
upper-cased response, defaulting to P6. -/
def specFirstGrade (response : String) : String :=
  ((gradeLevels.filter
      (fun level => pyContains (pyUpper (pyStrip response)) level)).headD "P6")

theorem find?_match_eq_filter_headD (p : String → Bool) (d : String) :
    ∀ ls : List String,
      (match ls.find? p with | some g => g | none => d)
        = (ls.filter p).headD d := by
  intro ls
  induction ls with
  | nil => rfl
  | cons a t ih =>
    by_cases h : p a
    · simp [List.find?_cons, List.filter_cons, h]
    · simpa [List.find?_cons, List.filter_cons, h] using ih

theorem extractGrade_mem (r : String) : extractGrade r ∈ gradeLevels := by
  unfold extractGrade
  cases hf : gradeLevels.find?
      (fun level => pyContains (pyUpper (pyStrip r)) level) with
  | none => simp [hf, gradeLevels]
  | some g =>
    exact List.mem_of_find?_eq_some hf

/-- C10: for every grading response string the extracted grade is one of the
seven labels P0-P6, and it equals the first label in the fixed order
P0,...,P6 occurring as a substring of the trimmed upper-cased response
(P6 when none occurs); a response mentioning several labels, such as
"not P0, this is P3", yields the highest-priority label mentioned. -/
theorem extractGrade_first_label :
    (∀ r : String, extractGrade r = specFirstGrade r) ∧
    (∀ r : String, extractGrade r ∈ gradeLevels) ∧
    extractGrade "not P0, this is P3" = "P0" := by
  refine ⟨?_, extractGrade_mem, ?_⟩
  · intro r
    unfold extractGrade specFirstGrade
    exact find?_match_eq_filter_headD _ _ gradeLevels
  · decide

/-- C8: grade_tweet is total, returns "P6" for every failed grading call and
for every response mentioning no valid label, and always returns one of the
seven tier labels. -/
theorem grade_tweet_fail_safe :
    (∀ e : String, grade_tweet (Except.error e) = "P6") ∧
    (∀ r : String,
      (gradeLevels.all
        (fun level => !pyContains (pyUpper (pyStrip r)) level)) = true →
        grade_tweet (Except.ok r) = "P6") ∧
    (∀ c : Except String String, grade_tweet c ∈ gradeLevels) := by
  refine ⟨fun e => rfl, ?_, ?_⟩
  · intro r h
    have hnone :
        gradeLevels.find?
          (fun level => pyContains (pyUpper (pyStrip r)) level) = none := by
      apply List.find?_eq_none.mpr
      intro x hx
      have := List.all_eq_true.mp h x hx
      simpa using this
    simp [grade_tweet, extractGrade, hnone]
  · intro c
    cases c with
    | error e => simp [grade_tweet, gradeLevels]
    | ok r => simpa [grade_tweet] using extractGrade_mem r

theorem grade_tweet_fail_safe_witness :
    (gradeLevels.all
      (fun level => !pyContains (pyUpper (pyStrip "hello")) level)) = true ∧
    grade_tweet (Except.ok "hello") = "P6" :=
  ⟨by decide, grade_tweet_fail_safe.2.1 "hello" (by decide)⟩

/-
Classification pipeline embedding (tweet_processor.py process_tweet and
process_worker.py process_single_tweet).

Time is modelled in seconds as integers; a tweet's published_at argument is
`Option Int` with `none` standing for the empty-string default of the Python
parameter, which is falsy at the expiration gate.
-/

/-- Settings fields consumed by the pipeline (settings.py lines 66-67). -/
structure ProcSettings where
  enable24hExpiration : Bool
  tweetExpirationHours : Nat

/-- Enrichment output of process_high_grade_tweet, an external collaborator
returning `none` on any parse or call failure (tweet_processor.py 86-161). -/
structure Enrichment where
  summary_cn : Option String
  keywords : List String
  translated_content : Option String

/-- External collaborators of the pipeline: the optional local relevance
filter, the grading chat call, the enrichment call, and the embedder. -/
structure Collaborators where
  ollamaFilter : Option (String → Except String Bool)
  chat : String → Except String String
  enrich : String → Option Enrichment
  embed : String → Option (List Int)

/-- The result dictionary built by process_tweet. -/
structure TweetResult where
  tweet_id : String
  grade : String
  summary_cn : Option String
  keywords : List String
  translated_content : Option String
  embedding : Option (List Int)
  filter_source : String
deriving DecidableEq

/-- Downstream call counts made during one process_tweet run. -/
structure Calls where
  ollamaCalls : Nat
  gradeCalls : Nat
  enrichCalls : Nat
  embedCalls : Nat
deriving DecidableEq

def zeroCalls : Calls :=
  { ollamaCalls := 0, gradeCalls := 0, enrichCalls := 0, embedCalls := 0 }

/-- Names bound at module scope in tweet_processor.py by its imports
(lines 7-17); line 11 imports only `datetime` and `timezone` from the
datetime module. -/
def tweetProcessorModuleNames : List String :=
  ["json", "logging", "time", "Dict", "Any", "Optional", "List",
   "datetime", "timezone", "get_llm_client", "TweetProcessingPrompts",
   "generate_embedding", "get_ollama_filter", "settings", "logger",
   "TweetProcessor", "get_tweet_processor"]

/-- The expiration comparison attempted at tweet_processor.py lines 204-210.
Evaluating `timedelta(hours=settings.TWEET_EXPIRATION_HOURS)` first resolves
the name `timedelta`; it is not bound in the module, so the block raises a
NameError before the comparison is made. -/
def expirationCheck (now pubDt : Int) (expirationHours : Nat) : Except String Bool :=
  if tweetProcessorModuleNames.contains "timedelta" then
    Except.ok (decide (now - pubDt > (expirationHours : Int) * 3600))
  else
    Except.error "NameError: name timedelta is not defined"

/-- The tiers receiving detailed processing (tweet_processor.py line 288). -/
def highGrades : List String := ["P0", "P1", "P2"]

/-- A short-circuit result with the given filter source
(tweet_processor.py lines 218-227 and 257-266). -/
def lowTierResult (tweet_id fs : String) : TweetResult :=
  { tweet_id := tweet_id, grade := "P6", summary_cn := none, keywords := [],
    translated_content := none, embedding := none, filter_source := fs }

/-- Steps three to five of process_tweet (lines 272-307): remote grading,
conditional enrichment for P0/P1/P2, and conditional embedding when a
non-empty summary was produced. -/
def gradeAndEnrich (c : Collaborators) (tweet_id content : String)
    (ollamaCalls : Nat) : TweetResult × Calls :=
  let grade := grade_tweet (c.chat content)
  if grade ∈ highGrades then
    match c.enrich content with
    | some d =>
      let embPair : Option (List Int) × Nat :=
        match d.summary_cn with
        | some s => if s = "" then (none, 0) else (c.embed s, 1)
        | none => (none, 0)
      ({ tweet_id := tweet_id, grade := grade, summary_cn := d.summary_cn,
         keywords := d.keywords, translated_content := d.translated_content,
         embedding := embPair.1, filter_source := "remote_llm" },
       { ollamaCalls := ollamaCalls, gradeCalls := 1, enrichCalls := 1,
         embedCalls := embPair.2 })
    | none =>
      ({ tweet_id := tweet_id, grade := grade, summary_cn := none,
         keywords := [], translated_content := none, embedding := none,
         filter_source := "remote_llm" },
       { ollamaCalls := ollamaCalls, gradeCalls := 1, enrichCalls := 1,
         embedCalls := 0 })
  else
    ({ tweet_id := tweet_id, grade := grade, summary_cn := none,
       keywords := [], translated_content := none, embedding := none,
       filter_source := "remote_llm" },
     { ollamaCalls := ollamaCalls, gradeCalls := 1, enrichCalls := 0,
       embedCalls := 0 })

/-- TweetProcessor.process_tweet (tweet_processor.py lines 163-314).
Stage one (expiration) is gated on the setting and on a truthy published_at;
its inner computation raises NameError, which line 228 catches before
continuing with normal processing. Stage two consults the local filter when
one is configured, failing open on errors. -/
def process_tweet (s : ProcSettings) (c : Collaborators) (now : Int)
    (tweet_id content : String) (published_at : Option Int) :
    TweetResult × Calls :=
  let expired : Bool :=
    if s.enable24hExpiration then
      match published_at with
      | none => false
      | some pub =>
        match expirationCheck now pub s.tweetExpirationHours with
        | Except.ok b => b
        | Except.error _ => false
    else false
  if expired then
    (lowTierResult tweet_id "expired", zeroCalls)
  else
    match c.ollamaFilter with
    | some f =>
      match f content with
      | Except.ok false =>
        (lowTierResult tweet_id "ollama_filtered",
         { zeroCalls with ollamaCalls := 1 })
      | Except.ok true => gradeAndEnrich c tweet_id content 1
      | Except.error _ => gradeAndEnrich c tweet_id content 1
    | none => gradeAndEnrich c tweet_id content 0

/-
Worker embedding (process_worker.py) over an explicit store state: the
tweets table processing_status column and the processed_tweets table keyed
by tweet_id.
-/

/-- A row handed to the worker by get_pending_tweets
(postgres_client.py lines 416-447). -/
structure TweetRow where
  tweet_id : String
  author : String
  content : String
  published_at : Option Int

/-- Store state visible to the worker: per-tweet processing status and the
processed_tweets rows as an association list keyed by tweet_id. -/
structure WorkerState where
  statuses : List (String × String)
  processedRows : List (String × String)

/-- update_tweet_processing_status (postgres_client.py lines 387-414):
an UPDATE touching the row whose tweet_id matches. -/
def setStatus (st : WorkerState) (id status : String) : WorkerState :=
  { st with statuses :=
      st.statuses.map (fun p => if p.1 = id then (id, status) else p) }

/-- Lookup of the processed_tweets row for a tweet id. -/
def lookupRow (rows : List (String × String)) (id : String) : Option String :=
  (rows.find? (fun p => p.1 = id)).map (fun p => p.2)

/-- Number of processed_tweets rows stored under a tweet id. -/
def countKey (rows : List (String × String)) (id : String) : Nat :=
  rows.countP (fun p => p.1 = id)

/-- insert_processed_tweet (postgres_client.py lines 325-385): INSERT with
ON CONFLICT (tweet_id) DO UPDATE, i.e. an upsert keyed by tweet_id. -/
def upsertRow (rows : List (String × String)) (id grade : String) :
    List (String × String) :=
  if rows.any (fun p => p.1 = id) then
    rows.map (fun p => if p.1 = id then (id, grade) else p)
  else
    rows ++ [(id, grade)]

/-- process_single_tweet (process_worker.py lines 35-89): mark processing,
run the pipeline (note lines 54-58 omit published_at, so process_tweet sees
its empty default), persist a processed_tweets row only for P0/P1/P2, and
mark completed, or failed when that insert fails. -/
def process_single_tweet (st : WorkerState) (s : ProcSettings)
    (c : Collaborators) (dbInsertFails : Bool) (now : Int) (tw : TweetRow) :
    WorkerState × Bool :=
  let st1 := setStatus st tw.tweet_id "processing"
  let result := (process_tweet s c now tw.tweet_id tw.content none).1
  if result.grade ∈ highGrades then
    if dbInsertFails then
      (setStatus st1 tw.tweet_id "failed", false)
    else
      let st2 := { st1 with
        processedRows := upsertRow st1.processedRows tw.tweet_id result.grade }
      (setStatus st2 tw.tweet_id "completed", true)
  else
    (setStatus st1 tw.tweet_id "completed", true)

/-
Association-list lemmas for the processed_tweets upsert.
-/

theorem countKey_map_replace (rows : List (String × String)) (id g : String) :
    countKey (rows.map (fun p => if p.1 = id then (id, g) else p)) id
      = countKey rows id := by
  induction rows with
  | nil => rfl
  | cons a t ih =>
    by_cases h : a.1 = id
    · simp [countKey, List.countP_cons, h] at ih ⊢
      omega
    · simp [countKey, List.countP_cons, h] at ih ⊢
      omega

theorem countKey_eq_zero_of_lookup_none (rows : List (String × String))
    (id : String) (h : lookupRow rows id = none) : countKey rows id = 0 := by
  have hfind : rows.find? (fun p => p.1 = id) = none := by
    unfold lookupRow at h
    cases hf : rows.find? (fun p => p.1 = id) with
    | none => rfl
    | some p => rw [hf] at h; simp at h
  rw [List.find?_eq_none] at hfind
  unfold countKey
  rw [List.countP_eq_zero]
  intro p hp
  simpa using hfind p hp

theorem countKey_upsert (rows : List (String × String)) (id g : String)
    (h : countKey rows id ≤ 1) : countKey (upsertRow rows id g) id = 1 := by
  unfold upsertRow
  by_cases hany : rows.any (fun p => p.1 = id) = true
  · rw [if_pos hany, countKey_map_replace]
    have hpos : 0 < countKey rows id := by
      unfold countKey
      rw [List.countP_pos_iff]
      obtain ⟨p, hp, hpid⟩ := List.any_eq_true.mp hany
      exact ⟨p, hp, hpid⟩
    omega
  · rw [if_neg hany]
    have hzero : countKey rows id = 0 := by
      unfold countKey
      rw [List.countP_eq_zero]
      intro p hp
      intro hpid
      exact hany (List.any_eq_true.mpr ⟨p, hp, hpid⟩)
    unfold countKey at hzero ⊢
    rw [List.countP_append, hzero]
    simp

theorem lookupRow_map_replace (id g : String) :
    ∀ rows : List (String × String), rows.any (fun p => p.1 = id) = true →
      lookupRow (rows.map (fun p => if p.1 = id then (id, g) else p)) id
        = some g := by
  intro rows
  induction rows with
  | nil => intro h; simp at h
  | cons a t ih =>
    intro h
    by_cases ha : a.1 = id
    · simp [lookupRow, List.find?_cons, ha]
    · have ht : t.any (fun p => p.1 = id) = true := by
        rcases List.any_eq_true.mp h with ⟨p, hp, hpid⟩
        rcases List.mem_cons.mp hp with hpa | hpt
        · exact absurd (by simpa [hpa] using hpid) ha
        · exact List.any_eq_true.mpr ⟨p, hpt, hpid⟩
      simpa [lookupRow, List.find?_cons, ha] using ih ht

theorem lookupRow_append_absent (id g : String) :
    ∀ rows : List (String × String), rows.any (fun p => p.1 = id) = false →
      lookupRow (rows ++ [(id, g)]) id = some g := by
  intro rows
  induction rows with
  | nil => intro _; simp [lookupRow, List.find?_cons]
  | cons a t ih =>
    intro h
    have ha : ¬ (a.1 = id) := by
      intro hc
      rw [List.any_cons] at h
      simp [hc] at h
    have ht : t.any (fun p => p.1 = id) = false := by
      cases hd : t.any (fun p => p.1 = id) with
      | false => rfl
      | true => rw [List.any_cons, hd] at h; simp at h
    simpa [lookupRow, List.cons_append, List.find?_cons, ha] using ih ht

theorem lookupRow_upsert (rows : List (String × String)) (id g : String) :
    lookupRow (upsertRow rows id g) id = some g := by
  unfold upsertRow
  by_cases hany : rows.any (fun p => p.1 = id) = true
  · rw [if_pos hany]; exact lookupRow_map_replace id g rows hany
  · rw [if_neg hany]
    have hfalse : rows.any (fun p => p.1 = id) = false := by
      cases hd : rows.any (fun p => p.1 = id) with
      | false => rfl
      | true => exact absurd hd hany
    exact lookupRow_append_absent id g rows hfalse

/-- C2: for every item processed to completion with a working insert, the
worker reports success, a processed_tweets row for the item exists if and
only if the assigned tier lies in P0/P1/P2, at most one row is stored under
the item id, and a retried run leaves the row count unchanged at most one. -/
theorem classification_row_iff_high_tier
    (st : WorkerState) (s : ProcSettings) (c : Collaborators) (now : Int)
    (tw : TweetRow) (h0 : lookupRow st.processedRows tw.tweet_id = none) :
    ((process_single_tweet st s c false now tw).2 = true) ∧
    ((lookupRow (process_single_tweet st s c false now tw).1.processedRows
        tw.tweet_id).isSome
      ↔ (process_tweet s c now tw.tweet_id tw.content none).1.grade
          ∈ highGrades) ∧
    countKey (process_single_tweet st s c false now tw).1.processedRows
        tw.tweet_id ≤ 1 ∧
    countKey (process_single_tweet
        (process_single_tweet st s c false now tw).1
        s c false now tw).1.processedRows tw.tweet_id ≤ 1 := by
  have hzero : countKey st.processedRows tw.tweet_id = 0 :=
    countKey_eq_zero_of_lookup_none _ _ h0
  by_cases hg :
      (process_tweet s c now tw.tweet_id tw.content none).1.grade ∈ highGrades
  · have hrows :
        (process_single_tweet st s c false now tw).1.processedRows
          = upsertRow st.processedRows tw.tweet_id
              (process_tweet s c now tw.tweet_id tw.content none).1.grade := by
      simp [process_single_tweet, setStatus, hg]
    have hok : (process_single_tweet st s c false now tw).2 = true := by
      simp [process_single_tweet, setStatus, hg]
    have hcount1 :
        countKey (process_single_tweet st s c false now tw).1.processedRows
          tw.tweet_id = 1 := by
      rw [hrows]
      exact countKey_upsert _ _ _ (by omega)
    have hrows2 :
        (process_single_tweet (process_single_tweet st s c false now tw).1
            s c false now tw).1.processedRows
          = upsertRow
              (process_single_tweet st s c false now tw).1.processedRows
              tw.tweet_id
              (process_tweet s c now tw.tweet_id tw.content none).1.grade := by
      simp [process_single_tweet, setStatus, hg]
    refine ⟨hok, ?_, by omega, ?_⟩
    · rw [hrows, lookupRow_upsert]
      simpa using hg
    · rw [hrows2]
      rw [countKey_upsert _ _ _ (by omega)]
  · have hrows :
        (process_single_tweet st s c false now tw).1.processedRows
          = st.processedRows := by
      simp [process_single_tweet, setStatus, hg]
    have hok : (process_single_tweet st s c false now tw).2 = true := by
      simp [process_single_tweet, setStatus, hg]
    have hrows2 :
        (process_single_tweet (process_single_tweet st s c false now tw).1
            s c false now tw).1.processedRows
          = (process_single_tweet st s c false now tw).1.processedRows := by
      simp [process_single_tweet, setStatus, hg]
    refine ⟨hok, ?_, ?_, ?_⟩
    · rw [hrows, h0]
      simpa using hg
    · rw [hrows]; omega
    · rw [hrows2, hrows]; omega

/-- Demonstration settings with expiration enabled at a 24 hour threshold. -/
def demoSettings : ProcSettings :=
  { enable24hExpiration := true, tweetExpirationHours := 24 }

/-- Demonstration collaborators: an enabled relevance filter that judges
everything relevant, a grader answering "P4", and inert enrichment and
embedding calls. -/
def demoCollab : Collaborators :=
  { ollamaFilter := some (fun _ => Except.ok true),
    chat := fun _ => Except.ok "P4",
    enrich := fun _ => none,
    embed := fun _ => none }

theorem classification_row_iff_high_tier_witness :
    lookupRow (WorkerState.mk [("t1", "pending")] []).processedRows "t1"
        = none ∧
    (process_single_tweet (WorkerState.mk [("t1", "pending")] [])
        demoSettings demoCollab false 0
        (TweetRow.mk "t1" "alice" "hi" none)).2 = true :=
  ⟨rfl,
    (classification_row_iff_high_tier (WorkerState.mk [("t1", "pending")] [])
      demoSettings demoCollab 0 (TweetRow.mk "t1" "alice" "hi" none) rfl).1⟩

/-- C1: with expiration enabled and a 24 hour threshold, a tweet published
30 hours before now is past the threshold, yet the pipeline does not
short-circuit: the name `timedelta` is unbound in tweet_processor.py, the
resulting NameError is swallowed, the relevance filter and the grader are
both called, the filter source stays "remote_llm" and the grade comes from
the grading stage; moreover process_single_tweet omits published_at
entirely, so the worker result never depends on it. -/
theorem expired_item_not_short_circuited :
    ((108000 : Int) - 0 > (24 : Int) * 3600) ∧
    expirationCheck 108000 0 24
      = Except.error "NameError: name timedelta is not defined" ∧
    (process_tweet demoSettings demoCollab 108000 "t1" "hi"
        (some 0)).1.filter_source = "remote_llm" ∧
    (process_tweet demoSettings demoCollab 108000 "t1" "hi"
        (some 0)).1.grade = "P4" ∧
    (process_tweet demoSettings demoCollab 108000 "t1" "hi"
        (some 0)).2.ollamaCalls = 1 ∧
    (process_tweet demoSettings demoCollab 108000 "t1" "hi"
        (some 0)).2.gradeCalls = 1 ∧
    (∀ (st : WorkerState) (s : ProcSettings) (c : Collaborators) (b : Bool)
        (now : Int) (id a cont : String) (p q : Option Int),
      process_single_tweet st s c b now (TweetRow.mk id a cont p)
        = process_single_tweet st s c b now (TweetRow.mk id a cont q)) := by
  refine ⟨by decide, rfl, rfl, by decide, rfl, rfl, ?_⟩
  intro st s c b now id a cont p q
  rfl

/-
Redis distributed lock embedding (redis_client.py lines 168-235). The Redis
keyspace is modelled as a function from keys to optional stored values.
-/

/-- RedisClient.acquire_lock (lines 168-198): SET key value NX EX expire;
returns the fresh token on success and none when the key is already held.
The expiry is recorded with the stored value for the lease-ttl claims. -/
def acquire_lock (kv : String → Option (String × Nat)) (lock_name : String)
    (token : String) (expire : Nat) :
    (String → Option (String × Nat)) × Option String :=
  let lock_key := "lock:" ++ lock_name
  match kv lock_key with
  | some _ => (kv, none)
  | none =>
    (fun k => if k = lock_key then some (token, expire) else kv k, some token)

/-- The Lua script run by RedisClient.release_lock (lines 216-224): if the
stored value equals the argument, delete the key and return 1, else 0; one
atomic step. -/
def releaseScript (kv : String → Option (String × Nat))
    (key value : String) : (String → Option (String × Nat)) × Nat :=
  match kv key with
  | some stored =>
    if stored.1 = value then (fun k => if k = key then none else kv k, 1)
    else (kv, 0)
  | none => (kv, 0)

/-- RedisClient.release_lock (lines 200-235): run the script on
"lock:" ++ name and report whether a deletion happened. -/
def release_lock (kv : String → Option (String × Nat))
    (lock_name lock_value : String) :
    (String → Option (String × Nat)) × Bool :=
  let lock_key := "lock:" ++ lock_name
  let r := releaseScript kv lock_key lock_value
  (r.1, r.2 ≠ 0)

/-- C4: releasing a lease held under tokenA with a different tokenB returns
false and leaves the whole keyspace unchanged. -/
theorem release_lock_token_mismatch
    (kv : String → Option (String × Nat)) (name tokenA tokenB : String)
    (e : Nat) (hheld : kv ("lock:" ++ name) = some (tokenA, e))
    (hne : tokenA ≠ tokenB) :
    (release_lock kv name tokenB).2 = false ∧
    (release_lock kv name tokenB).1 = kv := by
  simp only [release_lock, releaseScript]
  simp [hheld, hne]

theorem release_lock_token_mismatch_witness :
    (fun k => if k = "lock:crawler:main" then some ("tokA", 120) else none)
        ("lock:" ++ "crawler:main") = some ("tokA", 120) ∧
    (release_lock
      (fun k => if k = "lock:crawler:main" then some ("tokA", 120) else none)
      "crawler:main" "tokB").2 = false :=
  ⟨by decide,
    (release_lock_token_mismatch
      (fun k => if k = "lock:crawler:main" then some ("tokA", 120) else none)
      "crawler:main" "tokA" "tokB" 120 (by decide) (by decide)).1⟩

/-
Crawl lock timeout embedding (settings.py and main.py).
-/

/-- Settings.calculate_lock_timeout (settings.py lines 77-94): the base
timeout is user_count times the per-user estimate plus one cycle interval,
floored at twice the cycle interval. -/
def calculate_lock_timeout (estimatedTimePerUser crawlInterval userCount : Nat) :
    Nat :=
  let timeout := userCount * estimatedTimePerUser + crawlInterval
  let min_timeout := crawlInterval * 2
  max timeout min_timeout

/-- Attributes defined on the Settings class (settings.py lines 12-111):
every class variable and method in its body. -/
def settingsClassAttrs : List String :=
  ["POSTGRES_HOST", "POSTGRES_PORT", "POSTGRES_DB", "POSTGRES_USER",
   "POSTGRES_PASSWORD", "REDIS_HOST", "REDIS_PORT", "REDIS_PASSWORD",
   "REDIS_DB", "NITTER_INSTANCES", "LLM_API_KEY", "LLM_API_URL", "LLM_MODEL",
   "APP_ENV", "LOG_LEVEL", "TZ", "CRAWLER_TIMEOUT", "CRAWLER_RETRY",
   "CRAWLER_DELAY", "HTTP_RETRY_COUNT", "HTTP_RETRY_DELAY", "CRAWL_INTERVAL",
   "CRAWL_USER_INTERVAL", "ESTIMATED_TIME_PER_USER", "ENABLE_24H_EXPIRATION",
   "TWEET_EXPIRATION_HOURS", "BARK_PUSH_ENABLED", "BARK_PUSH_GRADES",
   "BARK_PUSH_ICON", "calculate_lock_timeout", "REDIS_QUEUE_CRAWL",
   "REDIS_QUEUE_PROCESS", "REDIS_SET_DEDUP", "get_postgres_url",
   "get_redis_url"]

/-- Python attribute access on the settings object: an Except that raises
AttributeError for a name the class does not define. -/
def settingsGetattr (name : String) : Except String String :=
  if settingsClassAttrs.contains name then Except.ok name
  else Except.error ("AttributeError: " ++ name)

/-- The expression main.py evaluates to obtain the lock expiry (lines 109
and 135): the attribute lookup of get_crawl_lock_timeout on settings. -/
def mainLockTimeoutLookup : Except String String :=
  settingsGetattr "get_crawl_lock_timeout"

/-- C3: Settings.calculate_lock_timeout is exactly the specified formula
max(userCount x perUserBudget + cycleInterval, 2 x cycleInterval), but the
coordinator never evaluates it: main.py calls
settings.get_crawl_lock_timeout(), an attribute the Settings class does not
define, so the lookup raises AttributeError before any lease acquisition. -/
theorem lock_timeout_formula_never_reaches_acquire :
    (∀ est interval count : Nat,
      calculate_lock_timeout est interval count
        = max (count * est + interval) (2 * interval)) ∧
    mainLockTimeoutLookup
      = Except.error "AttributeError: get_crawl_lock_timeout" ∧
    settingsClassAttrs.contains "calculate_lock_timeout" = true := by
  refine ⟨?_, rfl, by decide⟩
  intro est interval count
  show max (count * est + interval) (interval * 2)
    = max (count * est + interval) (2 * interval)
  rw [Nat.mul_comm interval 2]

/-
Per-author ingest loop embedding (main.py crawl_user lines 70-90 together
with redis_client.is_duplicate lines 94-117 and
postgres_client.insert_tweet lines 89-145).
-/

/-- State touched by one author's ingest: the dedup existence cache keys,
the tweet_id column of the tweets table, and the classification queue. -/
structure IngestState where
  dedupKeys : List String
  storeIds : List String
  queue : List String
deriving DecidableEq

/-- RedisClient.is_duplicate: report true when the key already exists,
otherwise mark the key (SETEX) and report false. -/
def is_duplicate (st : IngestState) (id : String) : IngestState × Bool :=
  if st.dedupKeys.contains id then (st, true)
  else ({ st with dedupKeys := id :: st.dedupKeys }, false)

/-- PostgresClient.insert_tweet: INSERT ON CONFLICT (tweet_id) DO NOTHING
RETURNING id; a conflicting id inserts nothing and yields no row. -/
def insert_tweet (st : IngestState) (id : String) : IngestState × Option Nat :=
  if st.storeIds.contains id then (st, none)
  else ({ st with storeIds := id :: st.storeIds }, some 1)

/-- The body of crawl_user's loop for one candidate tweet (lines 78-90):
skip cached duplicates, insert otherwise, and enqueue only when the insert
returned a row. -/
def ingestOne (st : IngestState) (id : String) : IngestState :=
  let d := is_duplicate st id
  if d.2 then d.1
  else
    let ins := insert_tweet d.1 id
    match ins.2 with
    | some _ => { ins.1 with queue := ins.1.queue ++ [id] }
    | none => ins.1

/-- crawl_user's full loop (lines 70-90): walk the newest-first list,
breaking at the first id equal to the author's recorded newest-known id. -/
def crawlLoop (latest : Option String) (st : IngestState) :
    List String → IngestState
  | [] => st
  | t :: rest =>
    if some t = latest then st else crawlLoop latest (ingestOne st t) rest

/-- The candidate ids the loop actually processes: the prefix strictly
before the first occurrence of the newest-known id. -/
def cutoffCandidates (latest : Option String) : List String → List String
  | [] => []
  | t :: rest =>
    if some t = latest then [] else t :: cutoffCandidates latest rest

theorem crawlLoop_eq_foldl_cutoff (latest : Option String) :
    ∀ (ts : List String) (st : IngestState),
      crawlLoop latest st ts
        = (cutoffCandidates latest ts).foldl ingestOne st := by
  intro ts
  induction ts with
  | nil => intro st; rfl
  | cons t rest ih =>
    intro st
    by_cases h : some t = latest
    · simp [crawlLoop, cutoffCandidates, h]
    · simp [crawlLoop, cutoffCandidates, h, ih]

/-- C5: with newest-known id X occurring in the fetched list, the loop
processes exactly the items strictly before X's first position, stopping at
X and discarding it and everything after it; when X does not occur the
whole list is processed. The loop itself equals a fold of the per-item
ingest over those candidates. -/
theorem incremental_cutoff (X : String) (st : IngestState)
    (pre post ts : List String) (hpre : X ∉ pre) (hts : X ∉ ts) :
    cutoffCandidates (some X) (pre ++ X :: post) = pre ∧
    cutoffCandidates (some X) ts = ts ∧
    crawlLoop (some X) st (pre ++ X :: post) = pre.foldl ingestOne st := by
  have hcut : ∀ l : List String, X ∉ l →
      cutoffCandidates (some X) (l ++ X :: post) = l := by
    intro l
    induction l with
    | nil => intro _; simp [cutoffCandidates]
    | cons a r ih =>
      intro hl
      have ha2 : ¬ (a = X) := fun hc => hl (hc ▸ List.mem_cons_self a r)
      have hr : X ∉ r := fun hm => hl (List.mem_cons_of_mem a hm)
      simp only [List.cons_append, cutoffCandidates]
      rw [if_neg (fun hc => ha2 (Option.some.inj hc))]
      exact congrArg (fun ys => a :: ys) (ih hr)
  have hall : ∀ l : List String, X ∉ l →
      cutoffCandidates (some X) l = l := by
    intro l
    induction l with
    | nil => intro _; rfl
    | cons a r ih =>
      intro hl
      have ha2 : ¬ (a = X) := fun hc => hl (hc ▸ List.mem_cons_self a r)
      have hr : X ∉ r := fun hm => hl (List.mem_cons_of_mem a hm)
      simp only [cutoffCandidates]
      rw [if_neg (fun hc => ha2 (Option.some.inj hc))]
      exact congrArg (fun ys => a :: ys) (ih hr)
  refine ⟨hcut pre hpre, hall ts hts, ?_⟩
  rw [crawlLoop_eq_foldl_cutoff, hcut pre hpre]

theorem incremental_cutoff_witness :
    ("100" ∉ ["103", "102", "101"]) ∧
    cutoffCandidates (some "100") (["103", "102", "101"] ++ "100" :: [])
      = ["103", "102", "101"] :=
  ⟨by decide,
    (incremental_cutoff "100" (IngestState.mk [] [] [])
      ["103", "102", "101"] [] [] (by decide) (by decide)).1⟩

/-- C6: ingesting the same id twice from a state not yet containing it
stores exactly one row and enqueues exactly once; moreover from any state
whose store already holds the id, one more ingest changes neither the store
nor the queue (the insert conflicts and nothing is enqueued). -/
theorem dedup_idempotence (st : IngestState) (id : String)
    (h1 : id ∉ st.storeIds) (h2 : id ∉ st.dedupKeys)
    (h3 : st.queue.count id = 0) :
    ((ingestOne (ingestOne st id) id).storeIds.count id = 1) ∧
    ((ingestOne (ingestOne st id) id).queue.count id = 1) ∧
    (∀ st' : IngestState, id ∈ st'.storeIds →
      (ingestOne st' id).storeIds = st'.storeIds ∧
      (ingestOne st' id).queue = st'.queue) := by
  have hfirst : ingestOne st id
      = { dedupKeys := id :: st.dedupKeys, storeIds := id :: st.storeIds,
          queue := st.queue ++ [id] } := by
    simp [ingestOne, is_duplicate, insert_tweet, h1, h2]
  have hsecond : ingestOne (ingestOne st id) id = ingestOne st id := by
    rw [hfirst]
    simp [ingestOne, is_duplicate]
  rw [hsecond, hfirst]
  refine ⟨?_, ?_, ?_⟩
  · simp [List.count_cons]
    exact List.count_eq_zero.mpr h1
  · simp [List.count_append]
    simpa using h3
  · intro st' hmem
    by_cases hdk : id ∈ st'.dedupKeys
    · simp [ingestOne, is_duplicate, hdk]
    · simp [ingestOne, is_duplicate, insert_tweet, hdk, hmem]

theorem dedup_idempotence_witness :
    ("42" ∉ ([] : List String)) ∧
    ((ingestOne (ingestOne (IngestState.mk [] [] []) "42") "42").storeIds.count
        "42" = 1) :=
  ⟨by decide,
    (dedup_idempotence (IngestState.mk [] [] []) "42" (by decide) (by decide)
      (by decide)).1⟩

/-
Crawl coordinator per-author step (main.py lines 192-223) over the tracked
author row of watched_users.
-/

/-- A watched_users row as selected by get_watched_users
(postgres_client.py lines 172-202). -/
structure Author where
  username : String
  isActive : Bool
  priority : Int
  lastCrawledAt : Option Int
deriving DecidableEq

/-- The due-author condition of get_watched_users (lines 188-195): active,
and never crawled or last crawled more than the interval ago. -/
def isDue (now interval : Int) (a : Author) : Bool :=
  a.isActive &&
    (match a.lastCrawledAt with
     | none => true
     | some t => decide (now - t > interval))

/-- The coordinator's handling of one author (main.py lines 198-223):
crawl_user raises exactly when fetch_user_timeline returns None (all
endpoints failed, main.py lines 59-61); on that exception the author row is
untouched; otherwise UPDATE watched_users SET last_crawled_at = NOW() runs,
also when zero new tweets were found. -/
def authorCycleStep (now : Int) (a : Author)
    (fetch : Option (List String)) : Author :=
  match fetch with
  | none => a
  | some _ => { a with lastCrawledAt := some now }

/-- C7: last_crawled_at is set to now exactly when the fetch completes
without error (a fetch with zero new items included), it never moves
backwards when time is consistent, and a failed fetch leaves the author row
unchanged, so the author stays due on the next cycle exactly as before. -/
theorem last_crawled_update_iff_fetch_success (now : Int) (a : Author)
    (fetch : Option (List String)) :
    (∀ ts : List String, fetch = some ts →
      (authorCycleStep now a fetch).lastCrawledAt = some now) ∧
    (fetch = none → authorCycleStep now a fetch = a) ∧
    (∀ t0 : Int, a.lastCrawledAt = some t0 → t0 ≤ now →
      ∀ t1 : Int, (authorCycleStep now a fetch).lastCrawledAt = some t1 →
        t0 ≤ t1) ∧
    (fetch = none → ∀ now2 interval : Int,
      isDue now2 interval (authorCycleStep now a fetch)
        = isDue now2 interval a) := by
  refine ⟨?_, ?_, ?_, ?_⟩
  · intro ts hts
    rw [hts]
    rfl
  · intro hnone
    rw [hnone]
    rfl
  · intro t0 ht0 hle t1 ht1
    cases fetch with
    | none =>
      have : t0 = t1 := by
        rw [show (authorCycleStep now a none) = a from rfl] at ht1
        rw [ht0] at ht1
        exact Option.some.inj ht1
      omega
    | some ts =>
      have : t1 = now := by
        have h2 : (authorCycleStep now a (some ts)).lastCrawledAt
            = some now := rfl
        rw [h2] at ht1
        exact (Option.some.inj ht1).symm
      omega
  · intro hnone now2 interval
    rw [hnone]
    rfl

theorem last_crawled_update_iff_fetch_success_witness :
    ((some ([] : List String)) = some ([] : List String)) ∧
    (authorCycleStep 500 (Author.mk "alice" true 0 (some 100))
        (some [])).lastCrawledAt = some 500 :=
  ⟨rfl,
    (last_crawled_update_iff_fetch_success 500
      (Author.mk "alice" true 0 (some 100)) (some [])).1 [] rfl⟩

/-
Endpoint availability check embedding
(instance_discovery.py NitterInstanceChecker.check_instance lines 44-100).
-/

/-- Body keywords treated as a Nitter content signature (line 76). -/
def nitter_indicators : List String := ["nitter", "instance", "bird", "unofficial"]

/-- URL keywords accepted as an alternative signal (lines 80-83). -/
def nitterUrlKeywords : List String := ["nitter", "bird", "twitter", "xcancel"]

/-- The availability decision of check_instance on a completed response
(lines 67-92): status must be 200; a URL containing "github" is rejected;
otherwise the lower-cased body must contain an indicator keyword or the
lower-cased URL must contain one of the URL keywords. Errors and timeouts
return unavailable on the exception paths (lines 94-100). -/
def check_instance_available (instance_url : String) (status_code : Nat)
    (body : String) : Bool :=
  if status_code = 200 then
    let content := pyLower body
    if pyContains (pyLower instance_url) "github" then false
    else
      let has_indicator :=
        nitter_indicators.any (fun k => pyContains content k)
      let has_nitter_url :=
        nitterUrlKeywords.any (fun k => pyContains (pyLower instance_url) k)
      has_indicator || has_nitter_url
  else false

/-- C9 counterexample: a URL containing "nitter" probed with a 200 response
whose body has none of the signature indicators is still marked available,
refuting the claim that such a candidate is never marked available. -/
theorem check_instance_body_signature_not_required :
    check_instance_available "https://nitter.example.com" 200 "hello world"
        = true ∧
    (nitter_indicators.all
      (fun k => !pyContains (pyLower "hello world") k)) = true := by
  constructor
  · rfl
  · rfl

/-- C9 amended: check_instance marks a candidate available if and only if
the HTTP status is 200, the lower-cased URL does not contain "github", and
either the lower-cased body contains one of the signature indicators or the
lower-cased URL contains one of the URL keywords; in particular the body
signature alone is not required (URL-keyword fallback), and a candidate
whose body lacks every indicator and whose URL also lacks every keyword is
never marked available. -/
theorem check_instance_requires_some_signature
    (url body : String) (status : Nat) :
    (check_instance_available url status body = true →
      status = 200 ∧ pyContains (pyLower url) "github" = false) ∧
    ((nitter_indicators.all (fun k => !pyContains (pyLower body) k)) = true →
      (nitterUrlKeywords.all (fun k => !pyContains (pyLower url) k)) = true →
      check_instance_available url status body = false) ∧
    check_instance_available url status body
      = (decide (status = 200) && (!pyContains (pyLower url) "github") &&
         (nitter_indicators.any (fun k => pyContains (pyLower body) k) ||
          nitterUrlKeywords.any (fun k => pyContains (pyLower url) k))) := by
  have heq : check_instance_available url status body
      = (decide (status = 200) && (!pyContains (pyLower url) "github") &&
         (nitter_indicators.any (fun k => pyContains (pyLower body) k) ||
          nitterUrlKeywords.any (fun k => pyContains (pyLower url) k))) := by
    unfold check_instance_available
    by_cases hs : status = 200
    · by_cases hg : pyContains (pyLower url) "github" = true
      · simp [hs, hg]
      · have hg2 : pyContains (pyLower url) "github" = false := by
          cases hv : pyContains (pyLower url) "github" with
          | false => rfl
          | true => exact absurd hv hg
        simp [hs, hg2]
    · simp [hs]
  refine ⟨?_, ?_, heq⟩
  · intro h
    rw [heq] at h
    constructor
    · by_cases hs : status = 200
      · exact hs
      · simp [hs] at h
    · by_cases hg : pyContains (pyLower url) "github" = true
      · rw [hg] at h
        simp at h
      · cases hv : pyContains (pyLower url) "github" with
        | false => rfl
        | true => exact absurd hv hg
  · intro hbody hurl
    rw [heq]
    have hb : nitter_indicators.any
        (fun k => pyContains (pyLower body) k) = false := by
      rw [List.any_eq_false]
      intro k hk
      have := List.all_eq_true.mp hbody k hk
      simpa using this
    have hu : nitterUrlKeywords.any
        (fun k => pyContains (pyLower url) k) = false := by
      rw [List.any_eq_false]
      intro k hk
      have := List.all_eq_true.mp hurl k hk
      simpa using this
    rw [hb, hu]
    simp

theorem check_instance_requires_some_signature_witness :
    (nitter_indicators.all
      (fun k => !pyContains (pyLower "plain page") k)) = true ∧
    (nitterUrlKeywords.all
      (fun k => !pyContains (pyLower "https://example.org") k)) = true ∧
    check_instance_available "https://example.org" 200 "plain page" = false :=
  ⟨by decide, by decide,
    (check_instance_requires_some_signature "https://example.org"
      "plain page" 200).2.1 (by decide) (by decide)⟩
